import Mathlib

/-!
Verification of the Urban Micro-Climate Map frontend against its design
specification.

The development shallowly embeds the JavaScript frontend sources:
comfort-band labelling (formatters.js, WebcamCard, MapView), the two
WebSocket subscriber transports (services/WebSocketManager.js and
hooks/useWebSocket.js) as explicit state machines, the three WebSocket
message handlers (src/App.js, the Dashboard App, the map App), and the
derived pie-chart values of WebcamDetails.  The backend Analyzer and
Broadcaster are not part of the frontend sources; where a property needs
them they are modelled from the specification text and marked as such.

JavaScript numbers appearing in comparisons are embedded as rationals;
counters, timer delays and WebSocket ready states are naturals.
-/

/-! ## Comfort level labelling (formatters.js, WebcamCard, MapView) -/

/-- Embeds the label field of getComfortLevelInfo in
frontend/src/utils/formatters.js: the if-chain on score with thresholds
80, 65, 45, 25. -/
def getComfortLevelInfo_label (score : ℚ) : String :=
  if score ≥ 80 then "Excellent"
  else if score ≥ 65 then "Good"
  else if score ≥ 45 then "Moderate"
  else if score ≥ 25 then "Poor"
  else "Very Poor"

/-- Embeds the label field of getComfortLevel in the WebcamCard component:
the same if-chain on the score with thresholds 80, 65, 45, 25. -/
def webcamCard_getComfortLevel_label (score : ℚ) : String :=
  if score ≥ 80 then "Excellent"
  else if score ≥ 65 then "Good"
  else if score ≥ 45 then "Moderate"
  else if score ≥ 25 then "Poor"
  else "Very Poor"

/-- Embeds getComfortLabel in the MapView component: if-chain on the score
with thresholds 80, 65, 45, 25. -/
def mapView_getComfortLabel (score : ℚ) : String :=
  if score ≥ 80 then "Excellent"
  else if score ≥ 65 then "Good"
  else if score ≥ 45 then "Moderate"
  else if score ≥ 25 then "Poor"
  else "Very Poor"

/-! ## WebSocket ready states (the numeric constants of the browser API) -/

/-- Browser constant WebSocket.CONNECTING. -/
def WebSocketConst.CONNECTING : ℕ := 0

/-- Browser constant WebSocket.OPEN. -/
def WebSocketConst.OPEN : ℕ := 1

/-- Browser constant WebSocket.CLOSING. -/
def WebSocketConst.CLOSING : ℕ := 2

/-- Browser constant WebSocket.CLOSED. -/
def WebSocketConst.CLOSED : ℕ := 3

/-! ## WebSocketManager (frontend/src/services/WebSocketManager.js) -/

/-- Constructor field maxReconnectAttempts of WebSocketManager (value 5). -/
def wsmMaxReconnectAttempts : ℕ := 5

/-- Constructor field reconnectDelay of WebSocketManager (value 1000 ms),
the base of the exponential backoff. -/
def wsmReconnectDelayBase : ℕ := 1000

/-- The delay scheduleReconnect computes for the n-th automatic reconnect
attempt (n is the value of reconnectAttempts after the increment at the
top of scheduleReconnect): reconnectDelay * 2 ^ (attempts - 1). -/
def wsmDelayForAttempt (n : ℕ) : ℕ :=
  wsmReconnectDelayBase * 2 ^ (n - 1)

/-- The delay the useWebSocket hook computes for the n-th automatic
reconnect attempt.  At scheduling time reconnectAttempts.current still
holds n - 1 (the increment happens inside the timer callback), so the
source expression min(1000 * 2 ** attempts, 30000) equals
min(1000 * 2 ^ (n - 1), 30000). -/
def hookDelayForAttempt (n : ℕ) : ℕ :=
  min (1000 * 2 ^ (n - 1)) 30000

/-- Field maxReconnectAttempts of the useWebSocket hook (value 10). -/
def hookMaxReconnectAttempts : ℕ := 10

/-- State of a WebSocketManager instance.  ws mirrors this.ws: none when
the field is null, some rs when a socket with readyState rs is attached.
pendingTimers is the multiset of delays of reconnect setTimeout timers
that have been scheduled by scheduleReconnect and have not yet fired;
the source keeps no handle to them, so disconnect cannot clear them. -/
structure WSMState where
  ws : Option ℕ
  reconnectAttempts : ℕ
  isConnecting : Bool
  pendingTimers : List ℕ
deriving Repr, DecidableEq

/-- State right after the WebSocketManager constructor runs. -/
def wsmInit : WSMState :=
  { ws := none, reconnectAttempts := 0, isConnecting := false,
    pendingTimers := [] }

/-- WebSocketManager.connect(): returns early when isConnecting is set or
the current socket is OPEN; otherwise creates a new socket (readyState
CONNECTING) and sets isConnecting.  The throw path of the try block is
not taken in the embedding (socket construction succeeds). -/
def wsmConnect (s : WSMState) : WSMState :=
  if s.isConnecting ∨ s.ws = some WebSocketConst.OPEN then s
  else { s with ws := some WebSocketConst.CONNECTING, isConnecting := true }

/-- WebSocketManager.scheduleReconnect(): increments reconnectAttempts,
computes reconnectDelay * 2 ^ (reconnectAttempts - 1) with the new
counter value, and registers a setTimeout with that delay. -/
def wsmScheduleReconnect (s : WSMState) : WSMState :=
  let attempts := s.reconnectAttempts + 1
  let delay := wsmReconnectDelayBase * 2 ^ (attempts - 1)
  { s with reconnectAttempts := attempts,
           pendingTimers := delay :: s.pendingTimers }

/-- Events a WebSocketManager instance reacts to: an explicit connect()
call, the socket open / close / error callbacks, the firing of one of the
scheduled reconnect timers, and an explicit disconnect() call. -/
inductive WSMEvent where
  | connectCall
  | opened
  | socketClosed (code : ℕ)
  | socketError
  | timerFire (d : ℕ)
  | disconnectCall
deriving Repr, DecidableEq

/-- One step of the WebSocketManager.  none means the event is not
enabled in the given state (e.g. an open callback without a connecting
socket, or a timer that is not pending).

opened embeds ws.onopen (isConnecting := false, reconnectAttempts := 0);
socketClosed embeds ws.onclose: the browser sets readyState to CLOSED
before the callback, which clears isConnecting and, when the close code
differs from 1000 and reconnectAttempts < maxReconnectAttempts, calls
scheduleReconnect; socketError embeds ws.onerror; timerFire embeds the
setTimeout callback of scheduleReconnect, which calls connect() whenever
the current readyState is not OPEN; disconnectCall embeds disconnect():
when this.ws is non-null it closes the socket with code 1000 and nulls
this.ws, touching nothing else - in particular no pending timer. -/
def wsmStep (s : WSMState) : WSMEvent → Option WSMState
  | .connectCall => some (wsmConnect s)
  | .opened =>
      if s.ws = some WebSocketConst.CONNECTING then
        some { s with ws := some WebSocketConst.OPEN,
                      isConnecting := false, reconnectAttempts := 0 }
      else none
  | .socketClosed code =>
      match s.ws with
      | some rs =>
          if rs = WebSocketConst.CLOSED then none
          else
            let s1 := { s with ws := some WebSocketConst.CLOSED,
                               isConnecting := false }
            if code ≠ 1000 ∧ s1.reconnectAttempts < wsmMaxReconnectAttempts
            then some (wsmScheduleReconnect s1)
            else some s1
      | none => none
  | .socketError =>
      match s.ws with
      | some _ => some { s with isConnecting := false }
      | none => none
  | .timerFire d =>
      if d ∈ s.pendingTimers then
        let s1 := { s with pendingTimers := s.pendingTimers.erase d }
        if s1.ws = some WebSocketConst.OPEN then some s1
        else some (wsmConnect s1)
      else none
  | .disconnectCall =>
      match s.ws with
      | some _ => some { s with ws := none }
      | none => some s

/-- States a WebSocketManager can reach from its freshly constructed
state by any sequence of enabled events. -/
inductive WSMReachable : WSMState → Prop where
  | init : WSMReachable wsmInit
  | step {s s' : WSMState} {e : WSMEvent} :
      WSMReachable s → wsmStep s e = some s' → WSMReachable s'

/-! ## useWebSocket hook (frontend/src/hooks/useWebSocket.js) -/

/-- State of the useWebSocket hook.  ws mirrors ws.current,
reconnectTimeout mirrors reconnectTimeoutRef.current (the delay of the
single pending reconnect timer, none when no timer is pending),
isConnected mirrors the isConnected React state. -/
structure HookState where
  ws : Option ℕ
  isConnected : Bool
  reconnectAttempts : ℕ
  reconnectTimeout : Option ℕ
deriving Repr, DecidableEq

/-- Hook state at mount, before the effect calls connect(). -/
def hookInit : HookState :=
  { ws := none, isConnected := false, reconnectAttempts := 0,
    reconnectTimeout := none }

/-- The hook's connect(): unconditionally creates a new socket
(readyState CONNECTING) in ws.current. -/
def hookConnect (s : HookState) : HookState :=
  { s with ws := some WebSocketConst.CONNECTING }

/-- The unmount cleanup of the useWebSocket effect: clearTimeout on the
pending reconnect timer when one is set, then close(1000) on the current
socket when one exists (a not-yet-closed socket moves to CLOSING). -/
def hookCleanup (s : HookState) : HookState :=
  { s with reconnectTimeout := none,
           ws := s.ws.map (fun rs =>
             if rs = WebSocketConst.CLOSED then rs
             else WebSocketConst.CLOSING) }

/-- Events the useWebSocket hook reacts to. -/
inductive HookEvent where
  | connectCall
  | opened
  | socketClosed (code : ℕ)
  | socketError
  | timerFire
  | cleanup
deriving Repr, DecidableEq

/-- One step of the useWebSocket hook.  opened embeds ws.onopen
(isConnected := true, reconnectAttempts.current := 0); socketClosed
embeds ws.onclose: when the close code differs from 1000 and
reconnectAttempts.current < maxReconnectAttempts it stores a setTimeout
with delay min(1000 * 2 ^ reconnectAttempts.current, 30000) in
reconnectTimeoutRef (the counter is not incremented yet); timerFire
embeds that timer's callback, which increments the counter and calls
connect(); cleanup embeds the effect cleanup. -/
def hookStep (s : HookState) : HookEvent → Option HookState
  | .connectCall => some (hookConnect s)
  | .opened =>
      if s.ws = some WebSocketConst.CONNECTING then
        some { s with ws := some WebSocketConst.OPEN,
                      isConnected := true, reconnectAttempts := 0 }
      else none
  | .socketClosed code =>
      match s.ws with
      | some rs =>
          if rs = WebSocketConst.CLOSED then none
          else
            let s1 := { s with ws := some WebSocketConst.CLOSED,
                               isConnected := false }
            if code ≠ 1000 ∧
               s1.reconnectAttempts < hookMaxReconnectAttempts then
              let t := min (1000 * 2 ^ s1.reconnectAttempts) 30000
              some { s1 with reconnectTimeout := some t }
            else some s1
      | none => none
  | .socketError =>
      match s.ws with
      | some _ => some s
      | none => none
  | .timerFire =>
      match s.reconnectTimeout with
      | some _ =>
          some (hookConnect
            { s with reconnectTimeout := none,
                     reconnectAttempts := s.reconnectAttempts + 1 })
      | none => none
  | .cleanup => some (hookCleanup s)

/-- States the useWebSocket hook can reach from mount by any sequence of
enabled events. -/
inductive HookReachable : HookState → Prop where
  | init : HookReachable hookInit
  | step {s s' : HookState} {e : HookEvent} :
      HookReachable s → hookStep s e = some s' → HookReachable s'

/-- WebSocketManager.getStatus(): "disconnected" when this.ws is null,
otherwise a switch on readyState with a default of "unknown". -/
def wsmGetStatus (ws : Option ℕ) : String :=
  match ws with
  | none => "disconnected"
  | some rs =>
      if rs = WebSocketConst.CONNECTING then "connecting"
      else if rs = WebSocketConst.OPEN then "connected"
      else if rs = WebSocketConst.CLOSING then "closing"
      else if rs = WebSocketConst.CLOSED then "closed"
      else "unknown"

/-- WebSocketManager.isConnected(): the optional-chaining comparison
this.ws?.readyState === WebSocket.OPEN, which is false when this.ws is
null (undefined is not 1). -/
def wsmIsConnected (ws : Option ℕ) : Bool :=
  match ws with
  | none => false
  | some rs => rs = WebSocketConst.OPEN

/-! ## WebSocket message handlers of the three App variants

Incoming frames carry a text payload.  JSON.parse either throws (the
payload is not valid JSON) or yields an object; the handlers only read
the fields type, webcam_id, data, payload and payload.webcam_id, so a
parsed object is embedded as a record of those fields, each optional
(a missing JavaScript field reads as undefined).  The data field can be
an analysis record (src/App.js) or an array of webcams (the Dashboard
App); the two shapes are split into data_rec and data_list.  The type
of analysis payloads is a parameter: the handlers store them without
inspecting them. -/

/-- A successfully parsed incoming JSON message, restricted to the
fields any of the three handlers reads. -/
structure ParsedMsg (α : Type) where
  mtype : Option String
  webcam_id : Option String
  data_rec : Option α
  data_list : Option (List α)
  payload_webcam_id : Option String
  payload : Option α
  timestamp : Option ℤ
deriving Repr, DecidableEq

/-- A raw incoming frame: either text that JSON.parse rejects, or a
parsed object. -/
inductive WireMsg (α : Type) where
  | malformed
  | parsed (m : ParsedMsg α)
deriving Repr, DecidableEq

/-- Modelled from the spec: the backend Broadcaster is not under src/.
Section 6 of the specification defines the outbound push message as the
JSON envelope with type "analysis_update" carrying webcam_id, data and
an epoch-ms timestamp; this record holds that payload. -/
structure PushEnvelope (α : Type) where
  webcam_id : String
  data : α
  timestamp : ℤ
deriving Repr, DecidableEq

/-- Modelled from the spec: serialization of a push envelope as the
subscribers parse it - type is "analysis_update" and the webcam_id,
data and timestamp fields are present; no payload field exists. -/
def PushEnvelope.serialize {α : Type} (e : PushEnvelope α) : WireMsg α :=
  .parsed { mtype := some "analysis_update",
            webcam_id := some e.webcam_id,
            data_rec := some e.data,
            data_list := none,
            payload_webcam_id := none,
            payload := none,
            timestamp := some e.timestamp }

/-- Subscriber state of the WebSocketManager-based App (src/App.js):
the webcams list and the per-webcam analysisData map (a JavaScript
object keyed by webcam id). -/
structure AppJsState (α : Type) where
  webcams : List α
  analysisData : String → Option α

/-- Body of the wsManager.onMessage handler in src/App.js, before the
catch: JSON.parse (throws on malformed input, embedded as .error), then
on type "analysis_update" the functional update
setAnalysisData(prev => (spread of prev with key message.webcam_id set
to message.data)).  A JavaScript object key is the string form of the
value, so an absent webcam_id would key the entry under "undefined". -/
def appJsOnMessageBody {α : Type} (st : AppJsState α) :
    WireMsg α → Except String (AppJsState α)
  | .malformed => .error "SyntaxError"
  | .parsed m =>
      if m.mtype = some "analysis_update" then
        let key := m.webcam_id.getD "undefined"
        .ok { st with analysisData := fun id =>
                if id = key then m.data_rec else st.analysisData id }
      else .ok st

/-- The installed onMessage handler of src/App.js: the body wrapped in
try/catch - a thrown parse error is logged and the state is unchanged. -/
def appJsOnMessage {α : Type} (st : AppJsState α) (w : WireMsg α) :
    AppJsState α :=
  match appJsOnMessageBody st w with
  | .ok st' => st'
  | .error _ => st

/-- Subscriber state of the Dashboard App (the useWebSocket-based App):
the webcamData React state.  setWebcamData(message.data) stores whatever
the data field holds, so the state is an optional list (undefined when
the field was absent). -/
structure DashAppState (α : Type) where
  webcamData : Option (List α)
deriving Repr, DecidableEq

/-- Body of the Dashboard App's message effect, before the catch:
JSON.parse, then on type "webcam_update" or "webcam_analysis_update"
setWebcamData(message.data); on "connection_established" only a log;
any other type does nothing. -/
def dashAppOnMessageBody {α : Type} (st : DashAppState α) :
    WireMsg α → Except String (DashAppState α)
  | .malformed => .error "SyntaxError"
  | .parsed m =>
      if m.mtype = some "webcam_update" ∨
         m.mtype = some "webcam_analysis_update" then
        .ok { webcamData := m.data_list }
      else .ok st

/-- The Dashboard App's message effect with its try/catch. -/
def dashAppOnMessage {α : Type} (st : DashAppState α) (w : WireMsg α) :
    DashAppState α :=
  match dashAppOnMessageBody st w with
  | .ok st' => st'
  | .error _ => st

/-- Subscriber state of the map App (the Vite/TSX variant): the analysis
record keyed by webcam id. -/
structure MapAppState (α : Type) where
  analysis : String → Option α

/-- Body of the map App's ws.onmessage handler, before the catch:
JSON.parse, then the guard msg?.type === "analysis" and truthiness of
msg?.payload?.webcam_id (undefined and the empty string are falsy);
when both hold, the functional update stores msg.payload under that
key. -/
def mapAppOnMessageBody {α : Type} (st : MapAppState α) :
    WireMsg α → Except String (MapAppState α)
  | .malformed => .error "SyntaxError"
  | .parsed m =>
      match m.payload_webcam_id with
      | some pid =>
          if m.mtype = some "analysis" ∧ pid ≠ "" then
            .ok { analysis := fun id =>
                    if id = pid then m.payload else st.analysis id }
          else .ok st
      | none => .ok st

/-- The map App's ws.onmessage handler with its try/catch (the catch
clause is empty: the state is unchanged). -/
def mapAppOnMessage {α : Type} (st : MapAppState α) (w : WireMsg α) :
    MapAppState α :=
  match mapAppOnMessageBody st w with
  | .ok st' => st'
  | .error _ => st

/-- The message types the src/App.js handler acts on. -/
def appJsRecognizedTypes : List String := ["analysis_update"]

/-- The message types the Dashboard App's effect acts on (the third one
only logs). -/
def dashAppRecognizedTypes : List String :=
  ["webcam_update", "webcam_analysis_update", "connection_established"]

/-- The message types the map App's handler acts on. -/
def mapAppRecognizedTypes : List String := ["analysis"]

/-! ## Analyzer result invariants

The Analyzer is backend code that is not under src/; the definitions in
this section are modelled from sections 4.3 and 8 of the specification.
The frontend consumer of the invariant (WebcamDetails.sunShadowData) is
embedded from source below. -/

/-- Modelled from the spec: an image is a grid of intensities in the
0..255 range; an embedded image is the flat list of its pixel
intensities. -/
def countBrightPixels (hi : ℕ) (img : List ℕ) : ℕ :=
  img.countP (fun p => decide (hi ≤ p))

/-- Modelled from the spec: the pixels the binarization classifies as
dark (below the dark threshold). -/
def countDarkPixels (lo : ℕ) (img : List ℕ) : ℕ :=
  img.countP (fun p => decide (p < lo))

/-- Modelled from the spec: sun_exposure_percent is the bright-pixel
fraction times 100 (section 4.3 step 4).  The thresholding uses a bright
threshold hi; pixels at or above it are bright. -/
def sunExposurePercent (hi : ℕ) (img : List ℕ) : ℚ :=
  100 * (countBrightPixels hi img : ℚ) / (img.length : ℚ)

/-- Modelled from the spec: shadow_coverage_percent is the dark-pixel
fraction times 100; pixels strictly below the dark threshold lo are
dark, and lo ≤ hi so a pixel is never both dark and bright.  The
residual fraction is neutral. -/
def shadowCoveragePercent (lo : ℕ) (img : List ℕ) : ℚ :=
  100 * (countDarkPixels lo img : ℚ) / (img.length : ℚ)

/-- Clamp a rational to the unit interval. -/
def clamp01 (x : ℚ) : ℚ := max 0 (min 1 x)

/-- Modelled from the spec: confidence is the average of a
contrast-derived sub-score and a brightness-derived sub-score, each a
value in the unit interval (section 4.3 step 9); the sub-scores enter
clamped to that interval. -/
def analyzerConfidence (contrastSub brightSub : ℚ) : ℚ :=
  (clamp01 contrastSub + clamp01 brightSub) / 2

/-- Modelled from the spec: the comfort score is a weighted combination
of a sun-exposure factor, a brightness factor and a weather factor
(section 4.3 step 10); with nonnegative weights summing to one and each
factor expressed on the 0..100 scale the combination stays in 0..100. -/
def comfortScore (wSun wBright wWeather fSun fBright fWeather : ℚ) : ℚ :=
  wSun * fSun + wBright * fBright + wWeather * fWeather

/-- Embeds the Neutral entry of the sunShadowData chart list in the
WebcamDetails component: 100 minus sun_exposure_percent minus
shadow_coverage_percent. -/
def neutralSliceValue (sun shadow : ℚ) : ℚ := 100 - sun - shadow

/-- Embeds the sunShadowData list built by WebcamDetails: the three
named slices, filtered to the strictly positive ones. -/
def sunShadowData (sun shadow : ℚ) : List (String × ℚ) :=
  ([("Sun Exposure", sun), ("Shadow Coverage", shadow),
    ("Neutral", neutralSliceValue sun shadow)]).filter
    (fun item => decide (0 < item.2))

/-- The counter invariant of the useWebSocket hook: the attempt counter
never exceeds its maximum, and whenever a reconnect timer is pending the
counter is strictly below the maximum (so the firing timer keeps the
bound). -/
def hookCounterInv (s : HookState) : Prop :=
  s.reconnectAttempts ≤ hookMaxReconnectAttempts ∧
  (s.reconnectTimeout ≠ none →
    s.reconnectAttempts < hookMaxReconnectAttempts)

/-! ## Theorems -/

theorem wsmConnect_reconnectAttempts (s : WSMState) :
    (wsmConnect s).reconnectAttempts = s.reconnectAttempts := by
  unfold wsmConnect; split <;> rfl

theorem wsmConnect_pendingTimers (s : WSMState) :
    (wsmConnect s).pendingTimers = s.pendingTimers := by
  unfold wsmConnect; split <;> rfl

/-- C1: for every comfort score the three frontend label functions
(getComfortLevelInfo in formatters.js, getComfortLevel in WebcamCard,
getComfortLabel in MapView) assign the same label, and the label follows
the fixed band boundaries: scores of 80 and above are Excellent, 65 to
just below 80 Good, 45 to just below 65 Moderate, 25 to just below 45
Poor, and below 25 Very Poor. -/
theorem comfort_labels_agree_and_follow_bands (s : ℚ) :
    getComfortLevelInfo_label s = webcamCard_getComfortLevel_label s
    ∧ getComfortLevelInfo_label s = mapView_getComfortLabel s
    ∧ (80 ≤ s → getComfortLevelInfo_label s = "Excellent")
    ∧ (65 ≤ s → s < 80 → getComfortLevelInfo_label s = "Good")
    ∧ (45 ≤ s → s < 65 → getComfortLevelInfo_label s = "Moderate")
    ∧ (25 ≤ s → s < 45 → getComfortLevelInfo_label s = "Poor")
    ∧ (s < 25 → getComfortLevelInfo_label s = "Very Poor") := by
  unfold getComfortLevelInfo_label webcamCard_getComfortLevel_label
    mapView_getComfortLabel
  refine ⟨rfl, rfl, ?_, ?_, ?_, ?_, ?_⟩ <;> intros <;>
    split_ifs <;> first | rfl | linarith

/-- Witness for the comfort-band theorem at concrete scores. -/
theorem comfort_labels_witness :
    getComfortLevelInfo_label 70 = "Good"
    ∧ getComfortLevelInfo_label 10 = "Very Poor" :=
  ⟨(comfort_labels_agree_and_follow_bands 70).2.2.2.1
      (by norm_num) (by norm_num),
   (comfort_labels_agree_and_follow_bands 10).2.2.2.2.2.2 (by norm_num)⟩

/-- C7: WebSocketManager.getStatus() returns "connected" exactly when a
socket exists with readyState OPEN, returns "disconnected" whenever no
socket object exists, and isConnected() is true exactly when getStatus()
is "connected". -/
theorem wsm_getStatus_isConnected_spec (ws : Option ℕ) :
    (wsmGetStatus ws = "connected" ↔ ws = some WebSocketConst.OPEN)
    ∧ (ws = none → wsmGetStatus ws = "disconnected")
    ∧ (wsmIsConnected ws = true ↔ wsmGetStatus ws = "connected") := by
  cases ws with
  | none => exact ⟨by decide, fun _ => rfl, by decide⟩
  | some rs =>
      by_cases h1 : rs = WebSocketConst.CONNECTING
      · subst h1; exact ⟨by decide, by decide, by decide⟩
      by_cases h2 : rs = WebSocketConst.OPEN
      · subst h2; exact ⟨by decide, by decide, by decide⟩
      by_cases h3 : rs = WebSocketConst.CLOSING
      · subst h3; exact ⟨by decide, by decide, by decide⟩
      by_cases h4 : rs = WebSocketConst.CLOSED
      · subst h4; exact ⟨by decide, by decide, by decide⟩
      · unfold wsmGetStatus wsmIsConnected
        dsimp only
        rw [if_neg h1, if_neg h2, if_neg h3, if_neg h4]
        refine ⟨⟨fun h => absurd h (by decide),
                 fun h => absurd (Option.some.inj h) h2⟩,
                fun h => Option.noConfusion h, ?_⟩
        constructor
        · intro h; exact absurd (of_decide_eq_true h) h2
        · intro h; exact absurd h (by decide)

/-- Witness for the getStatus and isConnected specification. -/
theorem wsm_getStatus_isConnected_witness :
    wsmGetStatus (some WebSocketConst.OPEN) = "connected"
    ∧ wsmGetStatus none = "disconnected" :=
  ⟨(wsm_getStatus_isConnected_spec (some WebSocketConst.OPEN)).1.mpr rfl,
   (wsm_getStatus_isConnected_spec none).2.1 rfl⟩

/-- C3 counterexample: the reconnect delay carries no random jitter and
WebSocketManager applies no cap.  Both implementations compute the delay
as a fixed function of the attempt number: at attempts 1 and 2 the
scheduled delays are exactly the bare exponential values 1000 and 2000
ms with a zero jitter term (the state machines are functions, so every
execution schedules these same values), the concrete close event
schedules exactly 1000 ms, and the WebSocketManager formula exceeds
30000 ms at attempt 6 because no cap is ever applied to it. -/
theorem backoff_no_jitter_cex :
    wsmDelayForAttempt 1 = 1000 ∧ hookDelayForAttempt 1 = 1000
    ∧ wsmDelayForAttempt 2 = 2000 ∧ hookDelayForAttempt 2 = 2000
    ∧ wsmStep (wsmConnect wsmInit) (.socketClosed 1006) =
        some ⟨some WebSocketConst.CLOSED, 1, false, [1000]⟩
    ∧ 30000 < wsmDelayForAttempt 6 := by decide

/-- C3 amended: the reconnect delay for attempt n is deterministic and
exponential in n, with no jitter: WebSocketManager schedules exactly
reconnectDelay * 2 ^ (n - 1) with no cap, and useWebSocket schedules
min(1000 * 2 ^ (n - 1), 30000), capped at 30000 ms.  Every timer a close
event schedules in either state machine carries exactly the delay of
that formula at the next attempt number. -/
theorem backoff_delay_formula :
    (∀ n, wsmDelayForAttempt n = wsmReconnectDelayBase * 2 ^ (n - 1)
        ∧ hookDelayForAttempt n ≤ 30000)
    ∧ (∀ s s' code, wsmStep s (.socketClosed code) = some s' →
        s'.pendingTimers = s.pendingTimers ∨
        s'.pendingTimers =
          wsmDelayForAttempt (s.reconnectAttempts + 1) :: s.pendingTimers)
    ∧ (∀ s s' code, hookStep s (.socketClosed code) = some s' →
        s'.reconnectTimeout = s.reconnectTimeout ∨
        s'.reconnectTimeout =
          some (hookDelayForAttempt (s.reconnectAttempts + 1))) := by
  refine ⟨fun n => ⟨rfl, min_le_right _ _⟩, ?_, ?_⟩
  · intro s s' code hs
    simp only [wsmStep] at hs
    split at hs
    · split at hs
      · exact absurd hs (by simp)
      · split at hs
        · right
          obtain rfl := Option.some.inj hs
          simp [wsmScheduleReconnect, wsmDelayForAttempt,
            wsmReconnectDelayBase]
        · left
          obtain rfl := Option.some.inj hs
          rfl
    · exact absurd hs (by simp)
  · intro s s' code hs
    simp only [hookStep] at hs
    split at hs
    · split at hs
      · exact absurd hs (by simp)
      · split at hs
        · right
          obtain rfl := Option.some.inj hs
          simp [hookDelayForAttempt]
        · left
          obtain rfl := Option.some.inj hs
          rfl
    · exact absurd hs (by simp)

/-- Witness for the amended backoff formula at a concrete close event. -/
theorem backoff_delay_formula_witness :
    (⟨some WebSocketConst.CLOSED, 1, false, [1000]⟩ :
        WSMState).pendingTimers = [] ∨
    (⟨some WebSocketConst.CLOSED, 1, false, [1000]⟩ :
        WSMState).pendingTimers =
      wsmDelayForAttempt (0 + 1) ::
        (wsmConnect wsmInit).pendingTimers :=
  backoff_delay_formula.2.1 (wsmConnect wsmInit)
    ⟨some WebSocketConst.CLOSED, 1, false, [1000]⟩ 1006 (by decide)

/-- C5 counterexample: in useWebSocket the delays of consecutive
scheduled attempts 6 and 7 are both 30000 ms (the cap), so the delay
before attempt 7 is not strictly greater than the delay before attempt
6, although both attempts are permitted (7 is at most
maxReconnectAttempts = 10). -/
theorem backoff_not_strictly_increasing_cex :
    hookDelayForAttempt 6 = 30000 ∧ hookDelayForAttempt 7 = 30000
    ∧ ¬ hookDelayForAttempt 6 < hookDelayForAttempt 7
    ∧ 7 ≤ hookMaxReconnectAttempts := by decide

/-- C5 amended: consecutive reconnect delays are strictly increasing in
WebSocketManager; in useWebSocket they are non-decreasing, and strictly
increasing until the 30000 ms cap is reached at attempt 6 (from attempt
6 on they stay constant). -/
theorem backoff_delay_monotone (n : ℕ) (h : 1 ≤ n) :
    wsmDelayForAttempt n < wsmDelayForAttempt (n + 1)
    ∧ hookDelayForAttempt n ≤ hookDelayForAttempt (n + 1)
    ∧ (n ≤ 5 → hookDelayForAttempt n < hookDelayForAttempt (n + 1)) := by
  have hpos : 0 < 2 ^ (n - 1) := Nat.pos_pow_of_pos _ (by norm_num)
  have he : n + 1 - 1 = (n - 1) + 1 := by omega
  refine ⟨?_, ?_, ?_⟩
  · unfold wsmDelayForAttempt wsmReconnectDelayBase
    rw [he, pow_succ]
    generalize 2 ^ (n - 1) = t at hpos ⊢
    omega
  · unfold hookDelayForAttempt
    refine min_le_min ?_ le_rfl
    rw [he, pow_succ]
    generalize 2 ^ (n - 1) = t at hpos ⊢
    omega
  · intro h5
    interval_cases n <;> decide

/-- Witness for the monotone backoff theorem at attempt 2. -/
theorem backoff_delay_monotone_witness :
    wsmDelayForAttempt 2 < wsmDelayForAttempt 3
    ∧ hookDelayForAttempt 2 < hookDelayForAttempt 3 :=
  ⟨(backoff_delay_monotone 2 (by norm_num)).1,
   (backoff_delay_monotone 2 (by norm_num)).2.2 (by norm_num)⟩

/-- C8 counterexample: the two subscriber transports do not realize the
same reconnection policy - the maximum number of automatic attempts is 5
in WebSocketManager and 10 in useWebSocket, and the delay formulas
differ at attempt 6 (32000 ms uncapped vs 30000 ms capped). -/
theorem reconnect_policies_differ_cex :
    wsmMaxReconnectAttempts = 5 ∧ hookMaxReconnectAttempts = 10
    ∧ wsmMaxReconnectAttempts ≠ hookMaxReconnectAttempts
    ∧ wsmDelayForAttempt 6 ≠ hookDelayForAttempt 6 := by decide

/-- C8 amended: the two transports agree on the delay schedule over the
attempts WebSocketManager permits - for every attempt number up to
wsmMaxReconnectAttempts = 5 both compute the same delay - but they
differ beyond that: the attempt maxima are 5 versus 10 and from attempt
6 on the formulas diverge (32000 vs 30000 ms at attempt 6). -/
theorem reconnect_policies_partial_agreement :
    (∀ n, 1 ≤ n → n ≤ wsmMaxReconnectAttempts →
        wsmDelayForAttempt n = hookDelayForAttempt n)
    ∧ wsmMaxReconnectAttempts ≠ hookMaxReconnectAttempts
    ∧ wsmDelayForAttempt 6 = 32000 ∧ hookDelayForAttempt 6 = 30000 := by
  refine ⟨?_, by decide, by decide, by decide⟩
  intro n h1 h5
  unfold wsmMaxReconnectAttempts at h5
  interval_cases n <;> decide

/-- Witness for the partial-agreement theorem at attempt 3. -/
theorem reconnect_policies_partial_agreement_witness :
    wsmDelayForAttempt 3 = hookDelayForAttempt 3 :=
  reconnect_policies_partial_agreement.1 3 (by norm_num) (by decide)

/-- How one WebSocketManager step can change the attempt counter: it is
kept, reset by a successful open, or incremented by a close that found
it strictly below the maximum. -/
theorem wsm_step_attempts {s s' : WSMState} {e : WSMEvent}
    (hs : wsmStep s e = some s') :
    s'.reconnectAttempts = s.reconnectAttempts ∨
    s'.reconnectAttempts = 0 ∨
    (s'.reconnectAttempts = s.reconnectAttempts + 1 ∧
      s.reconnectAttempts < wsmMaxReconnectAttempts) := by
  cases e with
  | connectCall =>
      simp only [wsmStep] at hs
      obtain rfl := Option.some.inj hs
      left; exact wsmConnect_reconnectAttempts s
  | opened =>
      simp only [wsmStep] at hs
      split at hs
      · obtain rfl := Option.some.inj hs; right; left; rfl
      · exact absurd hs (by simp)
  | socketClosed code =>
      simp only [wsmStep] at hs
      split at hs
      · split at hs
        · exact absurd hs (by simp)
        · split at hs
          · obtain rfl := Option.some.inj hs
            right; right
            next hcond => exact ⟨rfl, hcond.2⟩
          · obtain rfl := Option.some.inj hs; left; rfl
      · exact absurd hs (by simp)
  | socketError =>
      simp only [wsmStep] at hs
      split at hs
      · obtain rfl := Option.some.inj hs; left; rfl
      · exact absurd hs (by simp)
  | timerFire d =>
      simp only [wsmStep] at hs
      split at hs
      · split at hs
        · obtain rfl := Option.some.inj hs; left; rfl
        · obtain rfl := Option.some.inj hs
          left; exact wsmConnect_reconnectAttempts _
      · exact absurd hs (by simp)
  | disconnectCall =>
      simp only [wsmStep] at hs
      split at hs
      · obtain rfl := Option.some.inj hs; left; rfl
      · obtain rfl := Option.some.inj hs; left; rfl

/-- The attempt counter of every reachable WebSocketManager state is at
most maxReconnectAttempts. -/
theorem wsm_reachable_attempts_le {s : WSMState} (h : WSMReachable s) :
    s.reconnectAttempts ≤ wsmMaxReconnectAttempts := by
  induction h with
  | init => decide
  | step _ hs ih =>
      rcases wsm_step_attempts hs with h1 | h1 | ⟨h1, h2⟩ <;>
        simp only [wsmMaxReconnectAttempts] at * <;> omega

/-- Every enabled step of the useWebSocket hook preserves its counter
invariant. -/
theorem hook_step_inv {s s' : HookState} {e : HookEvent}
    (h : hookCounterInv s) (hs : hookStep s e = some s') :
    hookCounterInv s' := by
  obtain ⟨hle, hto⟩ := h
  cases e with
  | connectCall =>
      simp only [hookStep] at hs
      obtain rfl := Option.some.inj hs
      exact ⟨hle, hto⟩
  | opened =>
      simp only [hookStep] at hs
      split at hs
      · obtain rfl := Option.some.inj hs
        refine ⟨by simp [hookMaxReconnectAttempts], fun _ => ?_⟩
        simp [hookMaxReconnectAttempts]
      · exact absurd hs (by simp)
  | socketClosed code =>
      simp only [hookStep] at hs
      split at hs
      · split at hs
        · exact absurd hs (by simp)
        · split at hs
          · obtain rfl := Option.some.inj hs
            next hcond => exact ⟨hle, fun _ => hcond.2⟩
          · obtain rfl := Option.some.inj hs
            exact ⟨hle, hto⟩
      · exact absurd hs (by simp)
  | socketError =>
      simp only [hookStep] at hs
      split at hs
      · obtain rfl := Option.some.inj hs; exact ⟨hle, hto⟩
      · exact absurd hs (by simp)
  | timerFire =>
      simp only [hookStep] at hs
      split at hs
      · obtain rfl := Option.some.inj hs
        next d heq =>
          have hlt : s.reconnectAttempts < hookMaxReconnectAttempts :=
            hto (by simp [heq])
          refine ⟨?_, fun hc => absurd rfl hc⟩
          show s.reconnectAttempts + 1 ≤ hookMaxReconnectAttempts
          omega
      · exact absurd hs (by simp)
  | cleanup =>
      simp only [hookStep] at hs
      obtain rfl := Option.some.inj hs
      exact ⟨hle, fun hc => absurd rfl hc⟩

/-- Every reachable hook state satisfies the counter invariant. -/
theorem hook_reachable_inv {s : HookState} (h : HookReachable s) :
    hookCounterInv s := by
  induction h with
  | init => exact ⟨by decide, fun hc => absurd rfl hc⟩
  | step _ hs ih => exact hook_step_inv ih hs

/-- C9: in every reachable state of both subscriber transports the
reconnect-attempt counter is bounded by its maximum (5 in
WebSocketManager, 10 in useWebSocket), a successful open resets it to 0,
and a close event in a state already at the maximum schedules no new
reconnect timer - so the chain of automatic reconnection attempts after
any failure is finite. -/
theorem reconnect_attempt_counter_bounded :
    (∀ s, WSMReachable s →
        s.reconnectAttempts ≤ wsmMaxReconnectAttempts)
    ∧ (∀ s, HookReachable s →
        s.reconnectAttempts ≤ hookMaxReconnectAttempts)
    ∧ (∀ s s', wsmStep s .opened = some s' → s'.reconnectAttempts = 0)
    ∧ (∀ s s', hookStep s .opened = some s' → s'.reconnectAttempts = 0)
    ∧ (∀ s s' code, s.reconnectAttempts = wsmMaxReconnectAttempts →
        wsmStep s (.socketClosed code) = some s' →
        s'.pendingTimers = s.pendingTimers)
    ∧ (∀ s s' code, s.reconnectAttempts = hookMaxReconnectAttempts →
        hookStep s (.socketClosed code) = some s' →
        s'.reconnectTimeout = s.reconnectTimeout) := by
  refine ⟨fun s h => wsm_reachable_attempts_le h,
          fun s h => (hook_reachable_inv h).1, ?_, ?_, ?_, ?_⟩
  · intro s s' hs
    simp only [wsmStep] at hs
    split at hs
    · obtain rfl := Option.some.inj hs; rfl
    · exact absurd hs (by simp)
  · intro s s' hs
    simp only [hookStep] at hs
    split at hs
    · obtain rfl := Option.some.inj hs; rfl
    · exact absurd hs (by simp)
  · intro s s' code hmax hs
    simp only [wsmStep] at hs
    split at hs
    · split at hs
      · exact absurd hs (by simp)
      · split at hs
        · next hcond => exact absurd hcond.2 (by simp [hmax])
        · obtain rfl := Option.some.inj hs; rfl
    · exact absurd hs (by simp)
  · intro s s' code hmax hs
    simp only [hookStep] at hs
    split at hs
    · split at hs
      · exact absurd hs (by simp)
      · split at hs
        · next hcond => exact absurd hcond.2 (by simp [hmax])
        · obtain rfl := Option.some.inj hs; rfl
    · exact absurd hs (by simp)

/-- Witness for the counter-bound theorem at the initial states and at a
concrete open event. -/
theorem reconnect_attempt_counter_bounded_witness :
    wsmInit.reconnectAttempts ≤ wsmMaxReconnectAttempts
    ∧ hookInit.reconnectAttempts ≤ hookMaxReconnectAttempts
    ∧ (⟨some WebSocketConst.OPEN, 0, false, []⟩ :
        WSMState).reconnectAttempts = 0 :=
  ⟨reconnect_attempt_counter_bounded.1 wsmInit WSMReachable.init,
   reconnect_attempt_counter_bounded.2.1 hookInit HookReachable.init,
   reconnect_attempt_counter_bounded.2.2.1
     ⟨some WebSocketConst.CONNECTING, 0, true, []⟩
     ⟨some WebSocketConst.OPEN, 0, false, []⟩ (by decide)⟩

/-- C4 counterexample: a pending reconnect timer survives a manual
disconnect in WebSocketManager and re-opens the connection.  Concrete
trace: connect(), an abnormal close (code 1006) that schedules a 1000 ms
reconnect timer, then disconnect() - which closes with code 1000 and
nulls this.ws but cancels nothing - and then the pending timer fires,
finds the socket not OPEN, and calls connect(), leaving a live
CONNECTING socket after the manual disconnect. -/
theorem manual_disconnect_not_cancelled_cex :
    wsmStep wsmInit .connectCall =
      some ⟨some WebSocketConst.CONNECTING, 0, true, []⟩
    ∧ wsmStep ⟨some WebSocketConst.CONNECTING, 0, true, []⟩
        (.socketClosed 1006) =
      some ⟨some WebSocketConst.CLOSED, 1, false, [1000]⟩
    ∧ wsmStep ⟨some WebSocketConst.CLOSED, 1, false, [1000]⟩
        .disconnectCall =
      some ⟨none, 1, false, [1000]⟩
    ∧ wsmStep ⟨none, 1, false, [1000]⟩ (.timerFire 1000) =
      some ⟨some WebSocketConst.CONNECTING, 1, true, []⟩
    ∧ (⟨some WebSocketConst.CONNECTING, 1, true, []⟩ : WSMState).ws ≠
        none := by decide

/-- C4 amended: the useWebSocket cleanup cancels the pending reconnect
timer (no timer can fire afterwards) and a close with the manual code
1000 never schedules a reconnect in either implementation;
WebSocketManager.disconnect() itself schedules nothing, but it leaves
every already-pending reconnect timer in place (the source stores no
handle to cancel), which is what lets the counterexample trace re-open
the connection. -/
theorem manual_disconnect_policy :
    (∀ s : HookState, (hookCleanup s).reconnectTimeout = none)
    ∧ (∀ s : HookState, hookStep (hookCleanup s) .timerFire = none)
    ∧ (∀ s s' : HookState, hookStep s (.socketClosed 1000) = some s' →
        s'.reconnectTimeout = s.reconnectTimeout)
    ∧ (∀ s s' : WSMState, wsmStep s (.socketClosed 1000) = some s' →
        s'.pendingTimers = s.pendingTimers ∧
        s'.reconnectAttempts = s.reconnectAttempts)
    ∧ (∀ s s' : WSMState, wsmStep s .disconnectCall = some s' →
        s'.pendingTimers = s.pendingTimers) := by
  refine ⟨fun s => rfl, fun s => rfl, ?_, ?_, ?_⟩
  · intro s s' hs
    simp only [hookStep] at hs
    split at hs
    · split at hs
      · exact absurd hs (by simp)
      · split at hs
        · next hcond => exact absurd rfl hcond.1
        · obtain rfl := Option.some.inj hs; rfl
    · exact absurd hs (by simp)
  · intro s s' hs
    simp only [wsmStep] at hs
    split at hs
    · split at hs
      · exact absurd hs (by simp)
      · split at hs
        · next hcond => exact absurd rfl hcond.1
        · obtain rfl := Option.some.inj hs; exact ⟨rfl, rfl⟩
    · exact absurd hs (by simp)
  · intro s s' hs
    simp only [wsmStep] at hs
    split at hs
    · obtain rfl := Option.some.inj hs; rfl
    · obtain rfl := Option.some.inj hs; rfl

/-- Witness for the manual-disconnect policy at concrete states. -/
theorem manual_disconnect_policy_witness :
    (hookCleanup hookInit).reconnectTimeout = none
    ∧ hookStep (hookCleanup hookInit) .timerFire = none
    ∧ (⟨none, 1, false, [1000]⟩ : WSMState).pendingTimers =
        (⟨some WebSocketConst.CLOSED, 1, false, [1000]⟩ :
          WSMState).pendingTimers :=
  ⟨manual_disconnect_policy.1 hookInit,
   manual_disconnect_policy.2.1 hookInit,
   manual_disconnect_policy.2.2.2.2
     ⟨some WebSocketConst.CLOSED, 1, false, [1000]⟩
     ⟨none, 1, false, [1000]⟩ (by decide)⟩

/-- C2 counterexample: an outbound push envelope of type
"analysis_update" (as section 6 of the specification defines it, here
built by PushEnvelope.serialize) is ignored by two of the three
subscriber handlers.  The Dashboard App leaves its whole state unchanged
on such a message, and the map App does not store the carried data under
the carried webcam id - both listen for other type strings - so the
claim that a subscriber updates its entry for the carried webcam_id
fails on them. -/
theorem analysis_update_ignored_cex :
    dashAppOnMessage (α := ℚ) ⟨some []⟩
        (PushEnvelope.serialize ⟨"cam1", 99, 0⟩) = ⟨some []⟩
    ∧ (mapAppOnMessage (α := ℚ) ⟨fun _ => none⟩
        (PushEnvelope.serialize ⟨"cam1", 99, 0⟩)).analysis "cam1" ≠
        some 99 := by
  constructor
  · rfl
  · intro h
    exact Option.noConfusion h

/-- C2 amended: the push envelope carries type "analysis_update" with
webcam_id, data and timestamp, and the WebSocketManager-based App
(src/App.js) handles it exactly as the claim states - the entry for the
carried webcam_id becomes the carried data, every other entry and the
webcam list are unchanged - but the Dashboard App and the map App do not
recognize the type "analysis_update" and leave their state entirely
unchanged on such messages. -/
theorem analysis_update_handling {α : Type} (st : AppJsState α)
    (e : PushEnvelope α) :
    PushEnvelope.serialize e =
      WireMsg.parsed ⟨some "analysis_update", some e.webcam_id,
        some e.data, none, none, none, some e.timestamp⟩
    ∧ (appJsOnMessage st e.serialize).analysisData e.webcam_id =
        some e.data
    ∧ (∀ id, id ≠ e.webcam_id →
        (appJsOnMessage st e.serialize).analysisData id =
          st.analysisData id)
    ∧ (appJsOnMessage st e.serialize).webcams = st.webcams
    ∧ (∀ st4 : DashAppState α, dashAppOnMessage st4 e.serialize = st4)
    ∧ (∀ stm : MapAppState α, mapAppOnMessage stm e.serialize = stm) := by
  refine ⟨rfl, ?_, ?_, ?_, ?_, ?_⟩
  · show (if e.webcam_id = e.webcam_id then some e.data
          else st.analysisData e.webcam_id) = some e.data
    rw [if_pos rfl]
  · intro id hid
    show (if id = e.webcam_id then some e.data
          else st.analysisData id) = st.analysisData id
    rw [if_neg hid]
  · rfl
  · intro st4; rfl
  · intro stm; rfl

/-- Witness for the analysis_update handling theorem at a concrete
envelope and state. -/
theorem analysis_update_handling_witness :
    (appJsOnMessage (α := ℚ) ⟨[], fun _ => none⟩
        (PushEnvelope.serialize ⟨"cam1", 7, 0⟩)).analysisData "cam1" =
      some 7
    ∧ (appJsOnMessage (α := ℚ) ⟨[], fun _ => none⟩
        (PushEnvelope.serialize ⟨"cam1", 7, 0⟩)).analysisData "cam2" =
      none :=
  ⟨(analysis_update_handling ⟨[], fun _ => none⟩ ⟨"cam1", 7, 0⟩).2.1,
   (analysis_update_handling (α := ℚ) ⟨[], fun _ => none⟩
      ⟨"cam1", 7, 0⟩).2.2.1 "cam2" (by decide)⟩

/-- C10: a frame whose payload JSON.parse rejects leaves every
subscriber state unchanged (the try/catch turns the thrown parse error
into a logged no-op, so nothing propagates out of the handler), and a
parsed message whose type is none of the strings a handler recognizes
also leaves that handler's state - webcam list and analysis map -
unchanged. -/
theorem unknown_message_preserves_state {α : Type}
    (s1 : AppJsState α) (s4 : DashAppState α) (sm : MapAppState α)
    (m : ParsedMsg α) :
    appJsOnMessage s1 .malformed = s1
    ∧ dashAppOnMessage s4 .malformed = s4
    ∧ mapAppOnMessage sm .malformed = sm
    ∧ ((∀ t ∈ appJsRecognizedTypes, m.mtype ≠ some t) →
        appJsOnMessage s1 (.parsed m) = s1)
    ∧ ((∀ t ∈ dashAppRecognizedTypes, m.mtype ≠ some t) →
        dashAppOnMessage s4 (.parsed m) = s4)
    ∧ ((∀ t ∈ mapAppRecognizedTypes, m.mtype ≠ some t) →
        mapAppOnMessage sm (.parsed m) = sm) := by
  refine ⟨rfl, rfl, rfl, ?_, ?_, ?_⟩
  · intro h
    have h1 : m.mtype ≠ some "analysis_update" :=
      h "analysis_update" (by simp [appJsRecognizedTypes])
    simp only [appJsOnMessage, appJsOnMessageBody]
    rw [if_neg h1]
  · intro h
    have h1 : m.mtype ≠ some "webcam_update" :=
      h "webcam_update" (by simp [dashAppRecognizedTypes])
    have h2 : m.mtype ≠ some "webcam_analysis_update" :=
      h "webcam_analysis_update" (by simp [dashAppRecognizedTypes])
    simp only [dashAppOnMessage, dashAppOnMessageBody]
    rw [if_neg (fun hc : _ ∨ _ => hc.elim h1 h2)]
  · intro h
    have h1 : m.mtype ≠ some "analysis" :=
      h "analysis" (by simp [mapAppRecognizedTypes])
    simp only [mapAppOnMessage, mapAppOnMessageBody]
    cases hp : m.payload_webcam_id with
    | none => rfl
    | some pid =>
        dsimp only
        rw [if_neg (fun hc : _ ∧ _ => h1 hc.1)]

/-- Witness for the unknown-message theorem at a concrete message of
unrecognized type "bogus". -/
theorem unknown_message_preserves_state_witness :
    dashAppOnMessage (α := ℚ) ⟨some []⟩
        (.parsed ⟨some "bogus", none, none, none, none, none, none⟩) =
      ⟨some []⟩
    ∧ dashAppOnMessage (α := ℚ) ⟨some []⟩ .malformed = ⟨some []⟩ :=
  ⟨(unknown_message_preserves_state ⟨[], fun _ => none⟩ ⟨some []⟩
      ⟨fun _ => none⟩
      ⟨some "bogus", none, none, none, none, none, none⟩).2.2.2.2.1
      (by decide),
   (unknown_message_preserves_state (α := ℚ) ⟨[], fun _ => none⟩
      ⟨some []⟩ ⟨fun _ => none⟩
      ⟨some "bogus", none, none, none, none, none, none⟩).2.1⟩

/-- A pixel is never counted both dark (below lo) and bright (at least
hi) when lo ≤ hi, so the two counts together never exceed the pixel
count. -/
theorem countDark_add_countBright_le {lo hi : ℕ} (h : lo ≤ hi)
    (img : List ℕ) :
    countDarkPixels lo img + countBrightPixels hi img ≤ img.length := by
  induction img with
  | nil => simp [countDarkPixels, countBrightPixels]
  | cons a t ih =>
      unfold countDarkPixels countBrightPixels at ih ⊢
      rw [List.countP_cons, List.countP_cons]
      simp only [List.length_cons]
      by_cases h1 : a < lo <;> by_cases h2 : hi ≤ a <;>
        simp [h1, h2] <;> omega

/-- The percentages are nonnegative and, over a nonempty image with
lo ≤ hi, sum to at most 100. -/
theorem sun_add_shadow_le_100 {lo hi : ℕ} (h : lo ≤ hi)
    (img : List ℕ) :
    0 ≤ sunExposurePercent hi img ∧ 0 ≤ shadowCoveragePercent lo img ∧
    sunExposurePercent hi img + shadowCoveragePercent lo img ≤ 100 := by
  unfold sunExposurePercent shadowCoveragePercent
  rcases Nat.eq_zero_or_pos img.length with hL | hL
  · rw [hL]
    norm_num
  · have hLQ : (0 : ℚ) < (img.length : ℚ) := by exact_mod_cast hL
    have hc := countDark_add_countBright_le h img
    have hcQ : (countDarkPixels lo img : ℚ) +
        (countBrightPixels hi img : ℚ) ≤ (img.length : ℚ) := by
      exact_mod_cast hc
    have hb : (0 : ℚ) ≤ (countBrightPixels hi img : ℚ) := by
      positivity
    have hd : (0 : ℚ) ≤ (countDarkPixels lo img : ℚ) := by
      positivity
    refine ⟨by positivity, by positivity, ?_⟩
    rw [div_add_div_same, div_le_iff₀ hLQ]
    linarith

/-- C6: for all results the confidence is in the unit interval, the
comfort score is in 0..100, and sun_exposure_percent plus
shadow_coverage_percent is at most 100 - hence the Neutral pie slice the
WebcamDetails component derives, 100 minus sun minus shadow, is never
negative.  The Analyzer side is modelled from the spec (sections 4.3 and
8): dark and bright thresholds with lo ≤ hi, confidence the average of
two unit-interval sub-scores, comfort a weighted combination with
nonnegative weights summing to one of factors on the 0..100 scale. -/
theorem analyzer_result_bounds (lo hi : ℕ) (img : List ℕ)
    (wS wB wW fS fB fW cSub bSub : ℚ)
    (hlh : lo ≤ hi)
    (hwS : 0 ≤ wS) (hwB : 0 ≤ wB) (hwW : 0 ≤ wW)
    (hsum : wS + wB + wW = 1)
    (hfS : 0 ≤ fS) (hfS100 : fS ≤ 100)
    (hfB : 0 ≤ fB) (hfB100 : fB ≤ 100)
    (hfW : 0 ≤ fW) (hfW100 : fW ≤ 100) :
    (0 ≤ analyzerConfidence cSub bSub ∧ analyzerConfidence cSub bSub ≤ 1)
    ∧ (0 ≤ comfortScore wS wB wW fS fB fW ∧
        comfortScore wS wB wW fS fB fW ≤ 100)
    ∧ sunExposurePercent hi img + shadowCoveragePercent lo img ≤ 100
    ∧ 0 ≤ neutralSliceValue (sunExposurePercent hi img)
        (shadowCoveragePercent lo img) := by
  obtain ⟨hb, hd, hsumpct⟩ := sun_add_shadow_le_100 hlh img
  have hclampC : 0 ≤ clamp01 cSub ∧ clamp01 cSub ≤ 1 := by
    unfold clamp01
    constructor
    · exact le_max_left 0 _
    · exact max_le (by norm_num) (min_le_left 1 cSub)
  have hclampB : 0 ≤ clamp01 bSub ∧ clamp01 bSub ≤ 1 := by
    unfold clamp01
    constructor
    · exact le_max_left 0 _
    · exact max_le (by norm_num) (min_le_left 1 bSub)
  refine ⟨⟨?_, ?_⟩, ⟨?_, ?_⟩, hsumpct, ?_⟩
  · unfold analyzerConfidence; linarith [hclampC.1, hclampB.1]
  · unfold analyzerConfidence; linarith [hclampC.2, hclampB.2]
  · unfold comfortScore
    have h1 : 0 ≤ wS * fS := mul_nonneg hwS hfS
    have h2 : 0 ≤ wB * fB := mul_nonneg hwB hfB
    have h3 : 0 ≤ wW * fW := mul_nonneg hwW hfW
    linarith
  · unfold comfortScore
    have h1 : wS * fS ≤ wS * 100 := mul_le_mul_of_nonneg_left hfS100 hwS
    have h2 : wB * fB ≤ wB * 100 := mul_le_mul_of_nonneg_left hfB100 hwB
    have h3 : wW * fW ≤ wW * 100 := mul_le_mul_of_nonneg_left hfW100 hwW
    have h4 : wS * 100 + wB * 100 + wW * 100 = 100 := by
      linear_combination 100 * hsum
    linarith
  · unfold neutralSliceValue
    linarith

/-- Witness for the analyzer result bounds at a concrete image,
thresholds, weights and factors. -/
theorem analyzer_result_bounds_witness :
    (0 ≤ analyzerConfidence 2 (3 / 10) ∧
      analyzerConfidence 2 (3 / 10) ≤ 1)
    ∧ (0 ≤ comfortScore (1 / 2) (1 / 4) (1 / 4) 60 40 80 ∧
        comfortScore (1 / 2) (1 / 4) (1 / 4) 60 40 80 ≤ 100)
    ∧ sunExposurePercent 150 [40, 200, 120] +
        shadowCoveragePercent 100 [40, 200, 120] ≤ 100
    ∧ 0 ≤ neutralSliceValue
        (sunExposurePercent 150 [40, 200, 120])
        (shadowCoveragePercent 100 [40, 200, 120]) :=
  analyzer_result_bounds 100 150 [40, 200, 120]
    (1 / 2) (1 / 4) (1 / 4) 60 40 80 2 (3 / 10)
    (by norm_num) (by norm_num) (by norm_num) (by norm_num)
    (by norm_num) (by norm_num) (by norm_num) (by norm_num)
    (by norm_num) (by norm_num) (by norm_num)
